import Mathlib

/-
Verification of the `Image` container class of PyBDSF (`src/python/image.py`).

The class is a data holder with a map-caching indirection (`get_map` / `put_map`),
parameter load/save delegation (`load_pars`), plotting access (`show_fit`),
delegated export operations (`export_image` / `write_catalog`) and a minimal
multiprocessing state-transfer contract (`__getstate__` / `__setstate__`).

Modelling conventions:
- Python's dynamic attribute namespace for array-valued maps is a partial map
  `String → Option α`, where `α` is the (abstract) type of array values.
- Raised Python exceptions are values of `PyErr`; a method that can raise and
  mutate returns the exception (or `none`) together with the post-call object.
- Observable effects (calls to the external store, `print` statements, plotting
  calls) are recorded in an event trace returned alongside the result.
- External collaborator modules (`functions`, `interface`, `opts`, `os.path`)
  are not part of the source file; they are abstracted as environments whose
  behaviour is universally quantified.
-/

namespace PyBDSF

/-- Python exception values raised by the code under verification:
`RuntimeError(msg)`, `AttributeError` (from a failing `getattr`), and
`KeyError` (from a failing dict lookup in `__setstate__`). -/
inductive PyErr where
  | runtimeError : String → PyErr
  | attributeError : String → PyErr
  | keyError : String → PyErr
  deriving DecidableEq, Repr

/-- Modelled from the spec: the user options object built by the external
`opts` module (not under `src/`). The only field the source file reads or
writes is `filename`; all remaining option fields are abstracted as an
association list `rest`, so that "the options object is replaced wholesale"
is expressible. -/
structure Opts where
  filename : String
  rest : List (String × String)
  deriving DecidableEq, Repr

/-- Observable effects of the map-cache indirection: calls into the external
store collaborator (`functions.store_map` / `functions.retrieve_map`). -/
inductive Ev (α : Type) where
  | storeCall : String → α → Ev α
  | retrieveCall : String → Ev α
  deriving DecidableEq, Repr

/-- Observable user-facing effects of the convenience methods:
`print` statements and calls to the plotting collaborator
(`plotresults.plotresults`). -/
inductive OutEv where
  | printed : String → OutEv
  | plotted : OutEv
  deriving DecidableEq, Repr

/-- The `Image` container (class `Image` of `image.py`). Declared class
attributes that the verified methods read are explicit fields; the
array-valued maps (`image`, `ch0`, ... and any map inserted at run time)
live in the dynamic attribute namespace `attrs`, written via `put_map` and
read via `get_map`/`getattr`. `nisl`, `thresh_pix`, `minpix_isl` and
`clipped_mean` are scalar attributes inserted at run time by processing
stages; `nisl` is `Option`-valued because `show_fit` tests its presence
with `hasattr`. -/
structure Image (α : Type) where
  opts : Opts
  do_cache : Bool
  _is_interactive_shell : Bool
  masked : Bool
  basedir : String
  completed_Ops : List String
  waveletimage : Bool
  _pi : Bool
  _prev_opts : Option Opts
  extraparams : List (String × String)
  nisl : Option Nat
  thresh_pix : Int
  minpix_isl : Int
  clipped_mean : Int
  attrs : String → Option α

variable {α σ ρ : Type}

/-- Python `getattr(self, name)` on the dynamic map namespace: the stored
value, or an `AttributeError` when no value was ever written under `name`. -/
def getattr (img : Image α) (name : String) : Except PyErr α :=
  match img.attrs name with
  | some v => Except.ok v
  | none => Except.error (PyErr.attributeError name)

/-- Python `setattr(self, name, v)` on the dynamic map namespace. -/
def setattr (img : Image α) (name : String) (v : α) : Image α :=
  { img with attrs := fun n => if n = name then some v else img.attrs n }

/-- Modelled from the spec: the external store collaborator (the `functions`
module, not under `src/`): `store_map(self, name, data)` persists a value and
`retrieve_map(self, name)` materialises the value stored for this
(container, name) pair. The store state `σ` and both operations are
abstract; per the spec the store may normalise values, so
`retrieve_map` after `store_map` need not return the raw input. -/
structure CacheOps (α σ : Type) where
  store_map : σ → String → α → σ
  retrieve_map : σ → String → α

/-- `Image.get_map` (image.py lines 76-83): if `do_cache` is set, delegate to
the external store's retrieve operation; otherwise return the in-memory
attribute directly (raising `AttributeError` when absent). The trace records
any call into the external store. -/
def get_map (ops : CacheOps α σ) (st : σ) (img : Image α) (map_name : String) :
    Except PyErr α × List (Ev α) :=
  if img.do_cache then
    (Except.ok (ops.retrieve_map st map_name), [Ev.retrieveCall map_name])
  else
    (getattr img map_name, [])

/-- `Image.put_map` (image.py lines 85-92): if `do_cache` is set, first persist
via the external store, then set the in-memory attribute to the value
`self.get_map(map_name)` returns; otherwise set the in-memory attribute to the
raw input. Returns (raised exception if any, post store state, post object,
event trace). -/
def put_map (ops : CacheOps α σ) (st : σ) (img : Image α) (map_name : String) (map_data : α) :
    Option PyErr × σ × Image α × List (Ev α) :=
  if img.do_cache then
    let st2 := ops.store_map st map_name map_data
    let g := get_map ops st2 img map_name
    match g.1 with
    | Except.ok v => (none, st2, setattr img map_name v, Ev.storeCall map_name map_data :: g.2)
    | Except.error e => (some e, st2, img, Ev.storeCall map_name map_data :: g.2)
  else
    (none, st, setattr img map_name map_data, [])

/-- The ANSI-coloured banner `"\n\033[31;1mERROR\033[0m"` prefixed to every
interactive-shell error message in image.py. -/
def errBanner : String := "\n\x1b[31;1mERROR\x1b[0m"

/-- Modelled from the spec: the environment `load_pars` runs in. The
filesystem test `os.path.exists` and the parameter loader
`interface.load_pars(loadfile)` (the `interface` module is not under `src/`)
which returns a pair `(timg, err)`: a loaded image or `None`, and an error
object. The source file only reads `timg.opts` and `str(err)`, so the loaded
image is modelled by its options and the error by its string form. -/
structure ParsEnv where
  path_exists : String → Bool
  load_saved : String → Option Opts × String

/-- The load-path resolution at the top of `Image.load_pars` (image.py lines
119-120): a `None` or empty `loadfile` argument is replaced by
`self.opts.filename + '.pybdsm.sav'`; any other path is used as-is. -/
def resolve_loadfile (img : Image α) (loadfile : Option String) : String :=
  match loadfile with
  | none => img.opts.filename ++ ".pybdsm.sav"
  | some s => if s = "" then img.opts.filename ++ ".pybdsm.sav" else s

/-- `Image.load_pars` (image.py lines 115-138). On a successful load the
options object is replaced by the loaded one with `filename` reset to its
original value; on a failed load (invalid file) or a missing file, the object
is left untouched and the error is printed (interactive shell) or raised as a
`RuntimeError` (otherwise). Returns (raised exception if any, post object,
printed output). -/
def load_pars (env : ParsEnv) (img : Image α) (loadfile : Option String) :
    Option PyErr × Image α × List OutEv :=
  let lf := resolve_loadfile img loadfile
  if env.path_exists lf then
    match env.load_saved lf with
    | (some topts, _) =>
        let orig_filename := img.opts.filename
        (none, { img with opts := { topts with filename := orig_filename } }, [])
    | (none, err) =>
        if img._is_interactive_shell then
          (none, img,
            [OutEv.printed (errBanner ++ ": '" ++ lf ++ "' is not a valid parameter save file.")])
        else
          (some (PyErr.runtimeError err), img, [])
  else
    if img._is_interactive_shell then
      (none, img, [OutEv.printed (errBanner ++ ": File '" ++ lf ++ "' not found.")])
    else
      (some (PyErr.runtimeError "File not found"), img, [])

/-- `Image.show_fit` (image.py lines 140-147): if the container has no `nisl`
attribute (no processing stage has produced results) print a message and
return `False` without any plotting call; otherwise call the plotting
collaborator and return `True`. -/
def show_fit (img : Image α) : Bool × List OutEv :=
  if img.nisl.isNone then
    (false, [OutEv.printed "Image has not been processed. Please run process_image first."])
  else
    (true, [OutEv.plotted])

/-- `Image.export_image` (image.py lines 149-159). The delegated collaborator
call `interface.export_image(self, **kwargs)` is abstracted by its outcome
`call : Except PyErr ρ` (a returned value or a raised exception). A raised
`RuntimeError` is printed and swallowed in the interactive shell (the method
then falls off the end, returning Python `None`, modelled as `Except.ok none`)
and re-raised with the same message otherwise; a successful result `r` is
returned as `Except.ok (some r)`; any non-`RuntimeError` exception is not
caught by the `except RuntimeError` clause and propagates. -/
def export_image (img : Image α) (call : Except PyErr ρ) :
    Except PyErr (Option ρ) × List OutEv :=
  match call with
  | Except.ok result => (Except.ok (some result), [])
  | Except.error (PyErr.runtimeError m) =>
      if img._is_interactive_shell then
        (Except.ok none, [OutEv.printed (errBanner ++ ": " ++ m)])
      else
        (Except.error (PyErr.runtimeError m), [])
  | Except.error e => (Except.error e, [])

/-- `Image.write_catalog` (image.py lines 161-171): identical error-translation
structure to `export_image`, delegating to `interface.write_catalog`. -/
def write_catalog (img : Image α) (call : Except PyErr ρ) :
    Except PyErr (Option ρ) × List OutEv :=
  match call with
  | Except.ok result => (Except.ok (some result), [])
  | Except.error (PyErr.runtimeError m) =>
      if img._is_interactive_shell then
        (Except.ok none, [OutEv.printed (errBanner ++ ": " ++ m)])
      else
        (Except.error (PyErr.runtimeError m), [])
  | Except.error e => (Except.error e, [])

/-- Python dict lookup `state[k]`: the value, or a `KeyError` when absent. -/
def dict_get (d : List (String × Int)) (k : String) : Except PyErr Int :=
  match d.lookup k with
  | some v => Except.ok v
  | none => Except.error (PyErr.keyError k)

/-- `Image.__getstate__` (image.py lines 68-74): the state dict transferred
across process boundaries, holding exactly `thresh_pix`, `minpix_isl` and
`clipped_mean`. -/
def getstate (img : Image α) : List (String × Int) :=
  [("thresh_pix", img.thresh_pix), ("minpix_isl", img.minpix_isl),
    ("clipped_mean", img.clipped_mean)]

/-- `Image.__setstate__` (image.py lines 62-66): restore the three scalar
attributes from the state dict, in source order; a missing key raises
`KeyError`, leaving the earlier assignments applied. -/
def setstate (img : Image α) (state : List (String × Int)) : Option PyErr × Image α :=
  match dict_get state "thresh_pix" with
  | Except.error e => (some e, img)
  | Except.ok tp =>
    match dict_get state "minpix_isl" with
    | Except.error e => (some e, { img with thresh_pix := tp })
    | Except.ok mp =>
      match dict_get state "clipped_mean" with
      | Except.error e => (some e, { img with thresh_pix := tp, minpix_isl := mp })
      | Except.ok cm =>
          (none, { img with thresh_pix := tp, minpix_isl := mp, clipped_mean := cm })

/- Concrete instances used by the witness theorems. -/

/-- A concrete options object for witnesses. -/
def wOpts : Opts := { filename := "img.fits", rest := [("rms_box", "40")] }

/-- A concrete options object standing for loaded (saved-file) options. -/
def wOptsSaved : Opts := { filename := "saved.fits", rest := [("thresh", "hard")] }

/-- A concrete image with caching enabled, not in the interactive shell. -/
def wImgCached : Image Nat :=
  { opts := wOpts, do_cache := true, _is_interactive_shell := false, masked := false,
    basedir := "DUMMY", completed_Ops := [], waveletimage := false, _pi := false,
    _prev_opts := none, extraparams := [], nisl := none,
    thresh_pix := 5, minpix_isl := 6, clipped_mean := 7, attrs := fun _ => none }

/-- A concrete image with caching disabled, not in the interactive shell. -/
def wImgPlain : Image Nat := { wImgCached with do_cache := false }

/-- A concrete image in the interactive shell, caching disabled. -/
def wImgShell : Image Nat := { wImgPlain with _is_interactive_shell := true }

/-- A concrete processed image: the `nisl` attribute is present. -/
def wImgDone : Image Nat := { wImgPlain with nisl := some 3 }

/-- A concrete external store over association lists whose store operation
normalises the value (adds 1), so that the store round-trip differs from the
raw input. -/
def listStore : CacheOps Nat (List (String × Nat)) :=
  { store_map := fun st name v => (name, v + 1) :: st,
    retrieve_map := fun st name => (st.lookup name).getD 0 }

/-- A concrete environment in which no file exists. -/
def wEnvMissing : ParsEnv :=
  { path_exists := fun _ => false, load_saved := fun _ => (none, "") }

/-- A concrete environment in which every file exists but none parses as a
saved-parameter file. -/
def wEnvInvalid : ParsEnv :=
  { path_exists := fun _ => true, load_saved := fun _ => (none, "unpickling failed") }

/-- A concrete environment in which every file exists and loads to
`wOptsSaved`. -/
def wEnvGood : ParsEnv :=
  { path_exists := fun _ => true, load_saved := fun _ => (some wOptsSaved, "") }

/-- C1: when `do_cache` is true, `put_map(name, data)` first persists the value
via the external store and then sets the in-memory attribute for `name` to the
value the store's retrieve operation returns after the store (the result of
`get_map(name)`), so the attribute reflects the stored value (not necessarily
the raw input) and an immediate read returns that store-returned value. -/
theorem put_map_cached_reflects_store (ops : CacheOps α σ) (st : σ) (img : Image α)
    (map_name : String) (map_data : α) (h : img.do_cache = true) :
    put_map ops st img map_name map_data =
      (none, ops.store_map st map_name map_data,
        setattr img map_name
          (ops.retrieve_map (ops.store_map st map_name map_data) map_name),
        [Ev.storeCall map_name map_data, Ev.retrieveCall map_name]) ∧
    (put_map ops st img map_name map_data).2.2.1.attrs map_name =
      some (ops.retrieve_map (ops.store_map st map_name map_data) map_name) ∧
    get_map ops (put_map ops st img map_name map_data).2.1
        (put_map ops st img map_name map_data).2.2.1 map_name =
      (Except.ok (ops.retrieve_map (ops.store_map st map_name map_data) map_name),
        [Ev.retrieveCall map_name]) := by
  refine ⟨?_, ?_, ?_⟩ <;> simp [put_map, get_map, setattr, h]

/-- Witness for C1 at a concrete normalising store: writing 5 under "ch0"
leaves the attribute equal to the store-returned value (6), not the input. -/
theorem put_map_cached_reflects_store_witness :
    wImgCached.do_cache = true ∧
    (put_map listStore [] wImgCached "ch0" 5).2.2.1.attrs "ch0" =
      some (listStore.retrieve_map (listStore.store_map [] "ch0" 5) "ch0") ∧
    listStore.retrieve_map (listStore.store_map [] "ch0" 5) "ch0" = 6 :=
  ⟨rfl, (put_map_cached_reflects_store listStore [] wImgCached "ch0" 5 rfl).2.1, by decide⟩

/-- C2: when `do_cache` is false, `put_map(name, data)` sets the in-memory
attribute to the raw input without touching the external store (unchanged
store state, empty event trace), and an immediate `get_map(name)` returns
exactly `data`. -/
theorem put_map_uncached_roundtrip (ops : CacheOps α σ) (st : σ) (img : Image α)
    (map_name : String) (map_data : α) (h : img.do_cache = false) :
    put_map ops st img map_name map_data =
      (none, st, setattr img map_name map_data, []) ∧
    get_map ops st (setattr img map_name map_data) map_name =
      (Except.ok map_data, []) := by
  constructor <;> simp [put_map, get_map, getattr, setattr, h]

/-- Witness for C2: with caching disabled, writing 5 under "ch0" and reading
back returns exactly 5, with an empty store-event trace. -/
theorem put_map_uncached_roundtrip_witness :
    wImgPlain.do_cache = false ∧
    get_map listStore [] (setattr wImgPlain "ch0" 5) "ch0" = (Except.ok 5, []) :=
  ⟨rfl, (put_map_uncached_roundtrip listStore [] wImgPlain "ch0" 5 rfl).2⟩

/-- C9: when `do_cache` is false, `get_map(name)` returns the in-memory
attribute directly with no side effects (empty event trace, result given by
`getattr`), and raises `AttributeError` when no value was ever written under
`name`. -/
theorem get_map_uncached_direct (ops : CacheOps α σ) (st : σ) (img : Image α)
    (map_name : String) (h : img.do_cache = false) :
    get_map ops st img map_name = (getattr img map_name, []) ∧
    (∀ v, img.attrs map_name = some v →
      get_map ops st img map_name = (Except.ok v, [])) ∧
    (img.attrs map_name = none →
      get_map ops st img map_name = (Except.error (PyErr.attributeError map_name), [])) := by
  refine ⟨?_, ?_, ?_⟩ <;> simp [get_map, getattr, h]
  · intro v hv; simp [hv]
  · intro hv; simp [hv]

/-- Witness for C9: with caching disabled, reading the never-written name
"resid_gaus" raises `AttributeError`. -/
theorem get_map_uncached_direct_witness :
    wImgPlain.do_cache = false ∧ wImgPlain.attrs "resid_gaus" = none ∧
    get_map listStore [] wImgPlain "resid_gaus" =
      (Except.error (PyErr.attributeError "resid_gaus"), []) :=
  ⟨rfl, rfl, (get_map_uncached_direct listStore [] wImgPlain "resid_gaus" rfl).2.2 rfl⟩

/-- C3: when the resolved load path does not exist, `load_pars` raises
`RuntimeError('File not found')` outside the interactive shell, and in the
interactive shell prints a formatted error, does not raise, and leaves the
object (in particular its options) unchanged. -/
theorem load_pars_missing_file (env : ParsEnv) (img : Image α) (loadfile : Option String)
    (h : env.path_exists (resolve_loadfile img loadfile) = false) :
    (img._is_interactive_shell = false →
      load_pars env img loadfile =
        (some (PyErr.runtimeError "File not found"), img, [])) ∧
    (img._is_interactive_shell = true →
      load_pars env img loadfile =
        (none, img,
          [OutEv.printed
            (errBanner ++ ": File '" ++ resolve_loadfile img loadfile ++ "' not found.")])) := by
  constructor <;> intro hi <;> simp [load_pars, h, hi]

/-- Witness for C3: in an environment with no files, non-interactive
`load_pars` raises `RuntimeError('File not found')`. -/
theorem load_pars_missing_file_witness :
    wEnvMissing.path_exists (resolve_loadfile wImgPlain none) = false ∧
    wImgPlain._is_interactive_shell = false ∧
    load_pars wEnvMissing wImgPlain none =
      (some (PyErr.runtimeError "File not found"), wImgPlain, []) :=
  ⟨rfl, rfl, (load_pars_missing_file wEnvMissing wImgPlain none rfl).1 rfl⟩

/-- C5: when the file exists but the loader returns no image (invalid
saved-parameter file), `load_pars` leaves the object — and hence its options
and `filename` field — unchanged, printing an error in the interactive shell
and raising a `RuntimeError` carrying the loader's error message otherwise. -/
theorem load_pars_invalid_file (env : ParsEnv) (img : Image α) (loadfile : Option String)
    (h1 : env.path_exists (resolve_loadfile img loadfile) = true)
    (h2 : (env.load_saved (resolve_loadfile img loadfile)).1 = none) :
    (img._is_interactive_shell = false →
      load_pars env img loadfile =
        (some (PyErr.runtimeError (env.load_saved (resolve_loadfile img loadfile)).2),
          img, [])) ∧
    (img._is_interactive_shell = true →
      load_pars env img loadfile =
        (none, img,
          [OutEv.printed (errBanner ++ ": '" ++ resolve_loadfile img loadfile ++
            "' is not a valid parameter save file.")])) ∧
    (load_pars env img loadfile).2.1.opts.filename = img.opts.filename := by
  rcases hres : env.load_saved (resolve_loadfile img loadfile) with ⟨t, err⟩
  rw [hres] at h2
  simp only at h2
  subst h2
  refine ⟨?_, ?_, ?_⟩
  · intro hi; simp [load_pars, h1, hres, hi]
  · intro hi; simp [load_pars, h1, hres, hi]
  · cases hi : img._is_interactive_shell <;> simp [load_pars, h1, hres, hi]

/-- Witness for C5: loading an existing but invalid file in non-interactive
mode raises a `RuntimeError` with the loader's message and preserves the
original `filename` option. -/
theorem load_pars_invalid_file_witness :
    wEnvInvalid.path_exists (resolve_loadfile wImgPlain none) = true ∧
    (wEnvInvalid.load_saved (resolve_loadfile wImgPlain none)).1 = none ∧
    wImgPlain._is_interactive_shell = false ∧
    load_pars wEnvInvalid wImgPlain none =
      (some (PyErr.runtimeError "unpickling failed"), wImgPlain, []) ∧
    (load_pars wEnvInvalid wImgPlain none).2.1.opts.filename = "img.fits" :=
  ⟨rfl, rfl, rfl,
    (load_pars_invalid_file wEnvInvalid wImgPlain none rfl rfl).1 rfl,
    (load_pars_invalid_file wEnvInvalid wImgPlain none rfl rfl).2.2⟩

/-- C10: on a successful load (the loader returns an image), the options
object is replaced wholesale by the loaded options, except that `filename`
is reset to its pre-load value; nothing else on the object changes and no
exception is raised. -/
theorem load_pars_success_replaces_opts (env : ParsEnv) (img : Image α)
    (loadfile : Option String) (topts : Opts)
    (h1 : env.path_exists (resolve_loadfile img loadfile) = true)
    (h2 : (env.load_saved (resolve_loadfile img loadfile)).1 = some topts) :
    load_pars env img loadfile =
      (none, { img with opts := { topts with filename := img.opts.filename } }, []) ∧
    (load_pars env img loadfile).2.1.opts.filename = img.opts.filename ∧
    (load_pars env img loadfile).2.1.opts.rest = topts.rest := by
  rcases hres : env.load_saved (resolve_loadfile img loadfile) with ⟨t, err⟩
  rw [hres] at h2
  simp only at h2
  subst h2
  refine ⟨?_, ?_, ?_⟩ <;> simp [load_pars, h1, hres]

/-- Witness for C10: a successful load swaps in the saved options' fields but
keeps the original `filename` of "img.fits". -/
theorem load_pars_success_replaces_opts_witness :
    wEnvGood.path_exists (resolve_loadfile wImgPlain none) = true ∧
    (wEnvGood.load_saved (resolve_loadfile wImgPlain none)).1 = some wOptsSaved ∧
    (load_pars wEnvGood wImgPlain none).2.1.opts.filename = wImgPlain.opts.filename ∧
    (load_pars wEnvGood wImgPlain none).2.1.opts.rest = wOptsSaved.rest :=
  ⟨rfl, rfl,
    (load_pars_success_replaces_opts wEnvGood wImgPlain none wOptsSaved rfl rfl).2.1,
    (load_pars_success_replaces_opts wEnvGood wImgPlain none wOptsSaved rfl rfl).2.2⟩

/-- C8: a `None` or empty `loadfile` argument to `load_pars` resolves to the
options' `filename` field with the suffix `.pybdsm.sav` appended (so `None`
and `''` behave identically), while an explicitly given non-empty path is
used as-is. -/
theorem load_pars_default_path (env : ParsEnv) (img : Image α) :
    resolve_loadfile img none = img.opts.filename ++ ".pybdsm.sav" ∧
    resolve_loadfile img (some "") = img.opts.filename ++ ".pybdsm.sav" ∧
    (∀ s : String, s ≠ "" → resolve_loadfile img (some s) = s) ∧
    load_pars env img none = load_pars env img (some "") := by
  refine ⟨rfl, rfl, ?_, ?_⟩
  · intro s hs; simp [resolve_loadfile, hs]
  · simp [load_pars, resolve_loadfile]

/-- Witness for C8: the concrete image with `filename := "img.fits"` resolves
a missing path to "img.fits.pybdsm.sav" and uses "mypars.sav" as-is. -/
theorem load_pars_default_path_witness :
    resolve_loadfile wImgPlain none = "img.fits.pybdsm.sav" ∧
    resolve_loadfile wImgPlain (some "mypars.sav") = "mypars.sav" := by
  have h := load_pars_default_path wEnvMissing wImgPlain
  exact ⟨by rw [h.1]; rfl, h.2.2.1 "mypars.sav" (by decide)⟩

/-- C6: when the `nisl` attribute is absent (no processing stage has produced
results), `show_fit` prints a message and returns `False` with no plotting
call in its trace; when results are present it calls the plotting
collaborator and returns `True`. -/
theorem show_fit_requires_results (img : Image α) :
    (img.nisl = none →
      show_fit img =
        (false,
          [OutEv.printed "Image has not been processed. Please run process_image first."]) ∧
      OutEv.plotted ∉ (show_fit img).2) ∧
    (∀ k, img.nisl = some k → show_fit img = (true, [OutEv.plotted])) := by
  constructor
  · intro hn
    constructor <;> simp [show_fit, hn]
  · intro k hn
    simp [show_fit, hn]

/-- Witness for C6: the unprocessed concrete image returns `False` without
plotting; the processed one (with `nisl` present) plots and returns `True`. -/
theorem show_fit_requires_results_witness :
    wImgPlain.nisl = none ∧ wImgDone.nisl = some 3 ∧
    show_fit wImgPlain =
      (false,
        [OutEv.printed "Image has not been processed. Please run process_image first."]) ∧
    show_fit wImgDone = (true, [OutEv.plotted]) :=
  ⟨rfl, rfl, ((show_fit_requires_results wImgPlain).1 rfl).1,
    (show_fit_requires_results wImgDone).2 3 rfl⟩

/-- C7: `__getstate__` produces a state holding exactly the three scalar
fields `thresh_pix`, `minpix_isl` and `clipped_mean` (no map attribute,
header, mask, or options field), and `__setstate__` on such a state succeeds
and changes exactly those three attributes of the receiving object. -/
theorem state_transfer_exact_fields (img img2 : Image α) :
    getstate img =
      [("thresh_pix", img.thresh_pix), ("minpix_isl", img.minpix_isl),
        ("clipped_mean", img.clipped_mean)] ∧
    (getstate img).map Prod.fst = ["thresh_pix", "minpix_isl", "clipped_mean"] ∧
    setstate img2 (getstate img) =
      (none,
        { img2 with
          thresh_pix := img.thresh_pix,
          minpix_isl := img.minpix_isl,
          clipped_mean := img.clipped_mean }) :=
  ⟨rfl, rfl, rfl⟩

/-- C4: when the delegated collaborator call raises a `RuntimeError`, both
`export_image` and `write_catalog` re-raise it with the same message outside
the interactive shell, and in the interactive shell catch it, print it, and
return the failure indicator (Python `None`, modelled as `Except.ok none`)
without raising; in both modes no exception other than that `RuntimeError`
escapes. -/
theorem delegation_runtime_error (img : Image α) (call : Except PyErr ρ) (m : String)
    (h : call = Except.error (PyErr.runtimeError m)) :
    (img._is_interactive_shell = false →
      export_image img call = (Except.error (PyErr.runtimeError m), []) ∧
      write_catalog img call = (Except.error (PyErr.runtimeError m), [])) ∧
    (img._is_interactive_shell = true →
      export_image img call =
        (Except.ok none, [OutEv.printed (errBanner ++ ": " ++ m)]) ∧
      write_catalog img call =
        (Except.ok none, [OutEv.printed (errBanner ++ ": " ++ m)])) := by
  subst h
  constructor <;> intro hi <;>
    exact ⟨by simp [export_image, hi], by simp [write_catalog, hi]⟩

/-- Witness for C4: a collaborator `RuntimeError("disk full")` is re-raised
unchanged by the non-interactive image and swallowed (returning `none`) with
a printed banner by the interactive one. -/
theorem delegation_runtime_error_witness :
    wImgPlain._is_interactive_shell = false ∧
    wImgShell._is_interactive_shell = true ∧
    export_image wImgPlain (Except.error (PyErr.runtimeError "disk full") : Except PyErr Nat) =
      (Except.error (PyErr.runtimeError "disk full"), []) ∧
    write_catalog wImgShell (Except.error (PyErr.runtimeError "disk full") : Except PyErr Nat) =
      (Except.ok none, [OutEv.printed (errBanner ++ ": " ++ "disk full")]) :=
  ⟨rfl, rfl,
    ((delegation_runtime_error wImgPlain
      (Except.error (PyErr.runtimeError "disk full") : Except PyErr Nat)
      "disk full" rfl).1 rfl).1,
    ((delegation_runtime_error wImgShell
      (Except.error (PyErr.runtimeError "disk full") : Except PyErr Nat)
      "disk full" rfl).2 rfl).2⟩

end PyBDSF
